import Mathlib

/-!
Shallow embedding of the `RoadFreight` Soroban contract (`src/src/lib.rs`).

Opaque host types are modelled as follows: `Address` and `token` identities
and 32-byte digests (`BytesN<32>`) become `Nat` (only equality is used on
them in the source); Soroban `String` becomes Lean `String` (never compared
in the source); `u128` ids become `Nat` (the `id += 1` in `next_id` traps on
`u128` overflow under checked arithmetic, aborting the call, so every id
actually returned fits in `u128` and the pure `Nat` increment is faithful
to observable behaviour); `u64`/`u32` become `Nat` with explicit saturation
caps where the source saturates; `i128` becomes `Int` with explicit `i128`
bounds where the source saturates.  The host ledger timestamp
(`e.ledger().timestamp()`) is passed as an explicit `now : Nat` argument to
the two operations that read it.  `require_auth` is host-side
authentication that traps (it never produces a contract `Error`), so it has
no counterpart in the embedding.  The `extend_ttl` storage-lifecycle hint
in `put` has no observable effect on contract data and is not modelled.
-/

namespace RoadFreight

/-- The `Error` enum from `src/src/lib.rs` lines 10-16. -/
inductive Error where
  | Unauthorized
  | NotFound
  | BadState
  | EscrowNotFunded
  | AlreadySettled
deriving DecidableEq, Repr

/-- The `Status` enum from `src/src/lib.rs` lines 20-26. -/
inductive Status where
  | Draft
  | Active
  | InTransit
  | Delivered
  | Settled
deriving DecidableEq, Repr

/-- Position of a status in the lifecycle order `Draft, Active, InTransit,
Delivered, Settled`. -/
def Status.idx : Status → Nat
  | .Draft => 0
  | .Active => 1
  | .InTransit => 2
  | .Delivered => 3
  | .Settled => 4

/-- Immediate successor in the lifecycle order (`Settled` is terminal). -/
def Status.succ : Status → Option Status
  | .Draft => some .Active
  | .Active => some .InTransit
  | .InTransit => some .Delivered
  | .Delivered => some .Settled
  | .Settled => none

/-- Largest `u32` value. -/
def U32MAX : Nat := 2 ^ 32 - 1

/-- Largest `u64` value. -/
def U64MAX : Nat := 2 ^ 64 - 1

/-- Smallest `i128` value. -/
def I128MIN : Int := -(2 ^ 127)

/-- Largest `i128` value. -/
def I128MAX : Int := 2 ^ 127 - 1

/-- Rust `saturating_add` on an unsigned type with maximum value `cap`. -/
def satAddNat (a b cap : Nat) : Nat := min (a + b) cap

/-- Rust `i128::saturating_add`: the sum clamped into `[I128MIN, I128MAX]`. -/
def satAddI128 (a b : Int) : Int := max I128MIN (min (a + b) I128MAX)

/-- The `FreightContract` struct from `src/src/lib.rs` lines 30-47. -/
structure FreightContract where
  id : Nat
  shipper : Nat
  carrier : Nat
  origin : String
  destination : String
  token : Nat
  price : Int
  deadline_unix : Nat
  doc_hash : Nat
  status : Status
  created_at : Nat
  escrow_funded : Bool
  total_secs : Nat
  total_km : Nat
  computed_cost : Int
  last_paid : Int
deriving DecidableEq, Repr

/-- One published contract event, with the payload the source attaches to
each topic (`TEL` carries `(id, add_secs, add_km)`, `SETTLED` carries
`(id, pay)`, the rest carry the id). -/
inductive Event where
  | created (id : Nat)
  | accepted (id : Nat)
  | funded (id : Nat)
  | started (id : Nat)
  | tel (id add_secs add_km : Nat)
  | delivered (id : Nat)
  | settled (id : Nat) (pay : Int)
deriving DecidableEq, Repr

/-- Contract instance storage plus the stream of published events:
`next_id_val` is the `DataKey::NextId` slot (0 when absent, as in
`unwrap_or(0)`), `contracts` maps each id to its `DataKey::Contract(id)`
slot, and `events` lists every published event in order. -/
structure Ledger where
  next_id_val : Nat
  contracts : Nat → Option FreightContract
  events : List Event

/-- The ledger before any operation: no counter, no contracts, no events. -/
def initLedger : Ledger := ⟨0, fun _ => none, []⟩

/-- Model of `put(e, &DataKey::Contract(id), &fc)`. -/
def storeContract (s : Ledger) (id : Nat) (fc : FreightContract) : Ledger :=
  { s with contracts := fun i => if i = id then some fc else s.contracts i }

/-- Model of `e.events().publish(...)`: append one event to the stream. -/
def publish (s : Ledger) (ev : Event) : Ledger :=
  { s with events := s.events ++ [ev] }

/-- The `next_id` helper (`src/src/lib.rs` lines 68-73): read the counter (0 if
absent), increment, persist, return. -/
def next_id (s : Ledger) : Ledger × Nat :=
  let id := s.next_id_val + 1
  ({ s with next_id_val := id }, id)

/-- Operation `create_contract` (`src/src/lib.rs` lines 76-112). -/
def create_contract (s : Ledger) (shipper carrier : Nat)
    (origin destination : String) (token : Nat) (price : Int)
    (deadline_unix : Nat) (doc_hash : Nat) (now : Nat) :
    Ledger × Except Error Nat :=
  let (s1, id) := next_id s
  let fc : FreightContract :=
    { id := id, shipper := shipper, carrier := carrier, origin := origin
      destination := destination, token := token, price := price
      deadline_unix := deadline_unix, doc_hash := doc_hash
      status := .Draft, created_at := now, escrow_funded := false
      total_secs := 0, total_km := 0, computed_cost := 0, last_paid := 0 }
  (publish (storeContract s1 id fc) (.created id), .ok id)

/-- Operation `accept` (`src/src/lib.rs` lines 114-124). -/
def accept (s : Ledger) (id : Nat) (carrier : Nat) :
    Ledger × Except Error Unit :=
  match s.contracts id with
  | none => (s, .error .NotFound)
  | some fc =>
    if fc.carrier ≠ carrier then (s, .error .Unauthorized)
    else if fc.status ≠ .Draft then (s, .error .BadState)
    else
      (publish (storeContract s id { fc with status := .Active })
        (.accepted id), .ok ())

/-- Operation `mark_funded` (`src/src/lib.rs` lines 126-136). -/
def mark_funded (s : Ledger) (id : Nat) (shipper : Nat) :
    Ledger × Except Error Unit :=
  match s.contracts id with
  | none => (s, .error .NotFound)
  | some fc =>
    if fc.shipper ≠ shipper then (s, .error .Unauthorized)
    else if fc.status ≠ .Active then (s, .error .BadState)
    else
      (publish (storeContract s id { fc with escrow_funded := true })
        (.funded id), .ok ())

/-- Operation `start_trip` (`src/src/lib.rs` lines 138-149). -/
def start_trip (s : Ledger) (id : Nat) (caller : Nat) :
    Ledger × Except Error Unit :=
  match s.contracts id with
  | none => (s, .error .NotFound)
  | some fc =>
    if ¬(caller = fc.shipper ∨ caller = fc.carrier) then
      (s, .error .Unauthorized)
    else if fc.status ≠ .Active then (s, .error .BadState)
    else if ¬fc.escrow_funded then (s, .error .EscrowNotFunded)
    else
      (publish (storeContract s id { fc with status := .InTransit })
        (.started id), .ok ())

/-- Operation `log_telemetry` (`src/src/lib.rs` lines 151-170).  `add_secs` and
`add_km` are `u32` arguments; `add_secs` is widened to `u64` before the
saturating add (`add_secs as u64`).  The `oracle` address is only
authenticated by the host, never compared to anything. -/
def log_telemetry (s : Ledger) (id : Nat) (add_secs add_km : Nat)
    (add_cost : Int) (oracle : Nat) : Ledger × Except Error Unit :=
  match s.contracts id with
  | none => (s, .error .NotFound)
  | some fc =>
    if fc.status ≠ .InTransit then (s, .error .BadState)
    else
      let fc' :=
        { fc with
          total_secs := satAddNat fc.total_secs add_secs U64MAX
          total_km := satAddNat fc.total_km add_km U32MAX
          computed_cost := satAddI128 fc.computed_cost add_cost }
      (publish (storeContract s id fc') (.tel id add_secs add_km), .ok ())

/-- Operation `submit_pod` (`src/src/lib.rs` lines 172-183). -/
def submit_pod (s : Ledger) (id : Nat) (pod_hash : Nat) (caller : Nat) :
    Ledger × Except Error Unit :=
  match s.contracts id with
  | none => (s, .error .NotFound)
  | some fc =>
    if ¬(caller = fc.shipper ∨ caller = fc.carrier) then
      (s, .error .Unauthorized)
    else if fc.status ≠ .InTransit then (s, .error .BadState)
    else
      (publish
        (storeContract s id
          { fc with doc_hash := pod_hash, status := .Delivered })
        (.delivered id), .ok ())

/-- Operation `evaluate_and_settle` (`src/src/lib.rs` lines 185-200).  `fc.price / 2`
is Rust `i128` division, which truncates toward zero: `Int.tdiv`. -/
def evaluate_and_settle (s : Ledger) (id : Nat) (invoker : Nat)
    (now : Nat) : Ledger × Except Error Int :=
  match s.contracts id with
  | none => (s, .error .NotFound)
  | some fc =>
    if fc.status ≠ .Delivered then (s, .error .BadState)
    else if ¬fc.escrow_funded then (s, .error .EscrowNotFunded)
    else
      let pay := if now ≤ fc.deadline_unix then fc.price
                 else Int.tdiv fc.price 2
      (publish
        (storeContract s id
          { fc with status := .Settled, last_paid := pay })
        (.settled id pay), .ok pay)

/-- Operation `get_contract` (`src/src/lib.rs` lines 202-204): pure read. -/
def get_contract (s : Ledger) (id : Nat) : Except Error FreightContract :=
  match s.contracts id with
  | none => .error .NotFound
  | some fc => .ok fc

/-- One invocation of a public operation, with the host-provided ledger
timestamp inlined as an argument where the source reads it. -/
inductive Op where
  | create (shipper carrier : Nat) (origin destination : String)
      (token : Nat) (price : Int) (deadline_unix : Nat) (doc_hash : Nat)
      (now : Nat)
  | accept (id carrier : Nat)
  | markFunded (id shipper : Nat)
  | startTrip (id caller : Nat)
  | logTelemetry (id add_secs add_km : Nat) (add_cost : Int) (oracle : Nat)
  | submitPod (id pod_hash caller : Nat)
  | settle (id invoker now : Nat)
  | getContract (id : Nat)

/-- Result of one invocation, unifying the return types of the public
operations. -/
inductive OpResult where
  | okUnit
  | okId (id : Nat)
  | okPay (pay : Int)
  | okRecord (fc : FreightContract)
  | err (e : Error)
deriving DecidableEq, Repr

/-- Wrap an `Except Error Unit` outcome as an `OpResult`. -/
def OpResult.ofUnit : Except Error Unit → OpResult
  | .ok _ => .okUnit
  | .error e => .err e

/-- Wrap an `Except Error Nat` outcome (the created id) as an `OpResult`. -/
def OpResult.ofId : Except Error Nat → OpResult
  | .ok id => .okId id
  | .error e => .err e

/-- Wrap an `Except Error Int` outcome (the paid amount) as an `OpResult`. -/
def OpResult.ofPay : Except Error Int → OpResult
  | .ok p => .okPay p
  | .error e => .err e

/-- Wrap an `Except Error FreightContract` outcome as an `OpResult`. -/
def OpResult.ofRecord : Except Error FreightContract → OpResult
  | .ok fc => .okRecord fc
  | .error e => .err e

/-- Dispatch one invocation to the corresponding operation. -/
def applyOp (s : Ledger) : Op → Ledger × OpResult
  | .create sh ca o d t p dl h now =>
    ((create_contract s sh ca o d t p dl h now).1,
     .ofId (create_contract s sh ca o d t p dl h now).2)
  | .accept id ca => ((accept s id ca).1, .ofUnit (accept s id ca).2)
  | .markFunded id sh =>
    ((mark_funded s id sh).1, .ofUnit (mark_funded s id sh).2)
  | .startTrip id c => ((start_trip s id c).1, .ofUnit (start_trip s id c).2)
  | .logTelemetry id a b c o =>
    ((log_telemetry s id a b c o).1, .ofUnit (log_telemetry s id a b c o).2)
  | .submitPod id h c =>
    ((submit_pod s id h c).1, .ofUnit (submit_pod s id h c).2)
  | .settle id inv now =>
    ((evaluate_and_settle s id inv now).1,
     .ofPay (evaluate_and_settle s id inv now).2)
  | .getContract id => (s, .ofRecord (get_contract s id))

/-- Run a list of invocations from a state, left to right. -/
def runOps (s : Ledger) : List Op → Ledger
  | [] => s
  | op :: ops => runOps (applyOp s op).1 ops

/-- States reachable from the initial ledger by public operations. -/
inductive Reachable : Ledger → Prop
  | init : Reachable initLedger
  | step {s : Ledger} (op : Op) : Reachable s → Reachable (applyOp s op).1

/-- The ids of the `CREATED` events in the stream, in order. -/
def createdIds (s : Ledger) : List Nat :=
  s.events.filterMap fun ev =>
    match ev with
    | .created id => some id
    | _ => none


/-! ## Concrete demonstration states

The end-to-end scenario of the specification: shipper `10`, carrier `20`,
token `99`, price `1000`, deadline `100`, initial document digest `7`,
created at ledger time `5`; accepted, funded, started, one telemetry call
(`3600` secs, `500` km, cost `200`), delivered with POD digest `42`. -/

/-- The ledger after the scenario's `create_contract` (contract id 1). -/
def demoDraft : Ledger :=
  (applyOp initLedger (Op.create 10 20 "A" "B" 99 1000 100 7 5)).1

/-- The scenario ledger after `accept` by the carrier. -/
def demoActive : Ledger := (applyOp demoDraft (Op.accept 1 20)).1

/-- The scenario ledger after `mark_funded` by the shipper. -/
def demoFunded : Ledger := (applyOp demoActive (Op.markFunded 1 10)).1

/-- The scenario ledger after `start_trip` by the carrier. -/
def demoInTransit : Ledger := (applyOp demoFunded (Op.startTrip 1 20)).1

/-- The scenario ledger after one `log_telemetry` call by oracle `77`. -/
def demoTele : Ledger :=
  (applyOp demoInTransit (Op.logTelemetry 1 3600 500 200 77)).1

/-- The scenario ledger after `submit_pod` by the shipper. -/
def demoDelivered : Ledger := (applyOp demoTele (Op.submitPod 1 42 10)).1

/-- The record stored under id 1 in `demoDraft`, spelled out. -/
def demoDraftFc : FreightContract :=
  { id := 1, shipper := 10, carrier := 20, origin := "A", destination := "B",
    token := 99, price := 1000, deadline_unix := 100, doc_hash := 7,
    status := Status.Draft, created_at := 5, escrow_funded := false,
    total_secs := 0, total_km := 0, computed_cost := 0, last_paid := 0 }

/-- The record stored under id 1 in `demoActive`. -/
def demoActiveFc : FreightContract :=
  { demoDraftFc with status := Status.Active }

/-- The record stored under id 1 in `demoInTransit`. -/
def demoInTransitFc : FreightContract :=
  { demoDraftFc with status := Status.InTransit, escrow_funded := true }

/-- The record stored under id 1 in `demoTele`. -/
def demoTeleFc : FreightContract :=
  { demoInTransitFc with total_secs := 3600, total_km := 500,
                         computed_cost := 200 }

/-- The record stored under id 1 in `demoDelivered`, spelled out. -/
def demoDeliveredFc : FreightContract :=
  { id := 1, shipper := 10, carrier := 20, origin := "A", destination := "B",
    token := 99, price := 1000, deadline_unix := 100, doc_hash := 42,
    status := Status.Delivered, created_at := 5, escrow_funded := true,
    total_secs := 3600, total_km := 500, computed_cost := 200,
    last_paid := 0 }

/-- Boundedness of stored ids by the allocator counter: a fresh id can
never collide with an existing record. -/
def IdsBounded (s : Ledger) : Prop :=
  ∀ i fc, s.contracts i = some fc → i ≤ s.next_id_val

/-- A sample operation sequence with two creations interleaved with other
calls, one of which (the second `accept`) fails. -/
def demoOps : List Op :=
  [Op.create 10 20 "A" "B" 99 1000 100 7 5,
   Op.accept 1 20,
   Op.accept 1 21,
   Op.create 11 22 "C" "D" 98 500 80 8 6,
   Op.markFunded 1 10]

/-! ## Basic facts about storage and events -/

theorem publish_contracts (s : Ledger) (ev : Event) :
    (publish s ev).contracts = s.contracts := rfl

theorem publish_next_id (s : Ledger) (ev : Event) :
    (publish s ev).next_id_val = s.next_id_val := rfl

theorem publish_events (s : Ledger) (ev : Event) :
    (publish s ev).events = s.events ++ [ev] := rfl

theorem storeContract_next_id (s : Ledger) (id : Nat) (fc : FreightContract) :
    (storeContract s id fc).next_id_val = s.next_id_val := rfl

theorem storeContract_events (s : Ledger) (id : Nat) (fc : FreightContract) :
    (storeContract s id fc).events = s.events := rfl

theorem storeContract_at (s : Ledger) (id : Nat) (fc : FreightContract)
    (i : Nat) : (storeContract s id fc).contracts i =
      if i = id then some fc else s.contracts i := rfl

/-! ## Per-operation characterizations

Each operation either fails, returning the state untouched, or satisfies
its guards and performs exactly the mutation the source writes. -/

theorem create_contract_spec (s : Ledger) (sh ca : Nat) (o d : String)
    (t : Nat) (p : Int) (dl h now : Nat) :
    create_contract s sh ca o d t p dl h now =
      (publish (storeContract { s with next_id_val := s.next_id_val + 1 }
          (s.next_id_val + 1)
          { id := s.next_id_val + 1, shipper := sh, carrier := ca,
            origin := o, destination := d, token := t, price := p,
            deadline_unix := dl, doc_hash := h, status := Status.Draft,
            created_at := now, escrow_funded := false, total_secs := 0,
            total_km := 0, computed_cost := 0, last_paid := 0 })
        (Event.created (s.next_id_val + 1)),
       Except.ok (s.next_id_val + 1)) := rfl

theorem accept_spec (s : Ledger) (id ca : Nat) :
    (∃ e, accept s id ca = (s, Except.error e)) ∨
    (∃ fc, s.contracts id = some fc ∧ fc.carrier = ca ∧
      fc.status = Status.Draft ∧
      accept s id ca =
        (publish (storeContract s id { fc with status := Status.Active })
          (Event.accepted id), Except.ok ())) := by
  unfold accept
  split
  · exact Or.inl ⟨_, rfl⟩
  · rename_i fc heq
    split
    · exact Or.inl ⟨_, rfl⟩
    · split
      · exact Or.inl ⟨_, rfl⟩
      · rename_i h1 h2
        exact Or.inr ⟨fc, heq, not_not.mp h1, not_not.mp h2, rfl⟩

theorem mark_funded_spec (s : Ledger) (id sh : Nat) :
    (∃ e, mark_funded s id sh = (s, Except.error e)) ∨
    (∃ fc, s.contracts id = some fc ∧ fc.shipper = sh ∧
      fc.status = Status.Active ∧
      mark_funded s id sh =
        (publish (storeContract s id { fc with escrow_funded := true })
          (Event.funded id), Except.ok ())) := by
  unfold mark_funded
  split
  · exact Or.inl ⟨_, rfl⟩
  · rename_i fc heq
    split
    · exact Or.inl ⟨_, rfl⟩
    · split
      · exact Or.inl ⟨_, rfl⟩
      · rename_i h1 h2
        exact Or.inr ⟨fc, heq, not_not.mp h1, not_not.mp h2, rfl⟩

theorem start_trip_spec (s : Ledger) (id c : Nat) :
    (∃ e, start_trip s id c = (s, Except.error e)) ∨
    (∃ fc, s.contracts id = some fc ∧
      (c = fc.shipper ∨ c = fc.carrier) ∧ fc.status = Status.Active ∧
      fc.escrow_funded = true ∧
      start_trip s id c =
        (publish (storeContract s id { fc with status := Status.InTransit })
          (Event.started id), Except.ok ())) := by
  unfold start_trip
  split
  · exact Or.inl ⟨_, rfl⟩
  · rename_i fc heq
    split
    · exact Or.inl ⟨_, rfl⟩
    · split
      · exact Or.inl ⟨_, rfl⟩
      · split
        · exact Or.inl ⟨_, rfl⟩
        · rename_i h1 h2 h3
          exact Or.inr ⟨fc, heq, not_not.mp h1, not_not.mp h2,
            not_not.mp h3, rfl⟩

theorem log_telemetry_spec (s : Ledger) (id a k : Nat) (c : Int) (o : Nat) :
    (∃ e, log_telemetry s id a k c o = (s, Except.error e)) ∨
    (∃ fc, s.contracts id = some fc ∧ fc.status = Status.InTransit ∧
      log_telemetry s id a k c o =
        (publish (storeContract s id
            { fc with total_secs := satAddNat fc.total_secs a U64MAX,
                      total_km := satAddNat fc.total_km k U32MAX,
                      computed_cost := satAddI128 fc.computed_cost c })
          (Event.tel id a k), Except.ok ())) := by
  unfold log_telemetry
  split
  · exact Or.inl ⟨_, rfl⟩
  · rename_i fc heq
    split
    · exact Or.inl ⟨_, rfl⟩
    · rename_i h1
      exact Or.inr ⟨fc, heq, not_not.mp h1, rfl⟩

theorem submit_pod_spec (s : Ledger) (id h c : Nat) :
    (∃ e, submit_pod s id h c = (s, Except.error e)) ∨
    (∃ fc, s.contracts id = some fc ∧
      (c = fc.shipper ∨ c = fc.carrier) ∧ fc.status = Status.InTransit ∧
      submit_pod s id h c =
        (publish (storeContract s id
            { fc with doc_hash := h, status := Status.Delivered })
          (Event.delivered id), Except.ok ())) := by
  unfold submit_pod
  split
  · exact Or.inl ⟨_, rfl⟩
  · rename_i fc heq
    split
    · exact Or.inl ⟨_, rfl⟩
    · split
      · exact Or.inl ⟨_, rfl⟩
      · rename_i h1 h2
        exact Or.inr ⟨fc, heq, not_not.mp h1, not_not.mp h2, rfl⟩

theorem evaluate_and_settle_spec (s : Ledger) (id inv now : Nat) :
    (∃ e, evaluate_and_settle s id inv now = (s, Except.error e)) ∨
    (∃ fc, s.contracts id = some fc ∧ fc.status = Status.Delivered ∧
      fc.escrow_funded = true ∧
      evaluate_and_settle s id inv now =
        (publish (storeContract s id
            { fc with status := Status.Settled,
                      last_paid := if now ≤ fc.deadline_unix then fc.price
                                   else Int.tdiv fc.price 2 })
          (Event.settled id (if now ≤ fc.deadline_unix then fc.price
                             else Int.tdiv fc.price 2)),
         Except.ok (if now ≤ fc.deadline_unix then fc.price
                    else Int.tdiv fc.price 2))) := by
  unfold evaluate_and_settle
  split
  · exact Or.inl ⟨_, rfl⟩
  · rename_i fc heq
    split
    · exact Or.inl ⟨_, rfl⟩
    · split
      · exact Or.inl ⟨_, rfl⟩
      · rename_i h1 h2
        exact Or.inr ⟨fc, heq, not_not.mp h1, not_not.mp h2, rfl⟩


/-! ## Failed calls leave the ledger untouched -/

theorem accept_error_state (s : Ledger) (id ca : Nat) (e : Error)
    (h : (accept s id ca).2 = Except.error e) : (accept s id ca).1 = s := by
  rcases accept_spec s id ca with ⟨e', he⟩ | ⟨fc, -, -, -, he⟩
  · rw [he]
  · rw [he] at h; simp at h

theorem mark_funded_error_state (s : Ledger) (id sh : Nat) (e : Error)
    (h : (mark_funded s id sh).2 = Except.error e) :
    (mark_funded s id sh).1 = s := by
  rcases mark_funded_spec s id sh with ⟨e', he⟩ | ⟨fc, -, -, -, he⟩
  · rw [he]
  · rw [he] at h; simp at h

theorem start_trip_error_state (s : Ledger) (id c : Nat) (e : Error)
    (h : (start_trip s id c).2 = Except.error e) :
    (start_trip s id c).1 = s := by
  rcases start_trip_spec s id c with ⟨e', he⟩ | ⟨fc, -, -, -, -, he⟩
  · rw [he]
  · rw [he] at h; simp at h

theorem log_telemetry_error_state (s : Ledger) (id a k : Nat) (c : Int)
    (o : Nat) (e : Error)
    (h : (log_telemetry s id a k c o).2 = Except.error e) :
    (log_telemetry s id a k c o).1 = s := by
  rcases log_telemetry_spec s id a k c o with ⟨e', he⟩ | ⟨fc, -, -, he⟩
  · rw [he]
  · rw [he] at h; simp at h

theorem submit_pod_error_state (s : Ledger) (id hh c : Nat) (e : Error)
    (h : (submit_pod s id hh c).2 = Except.error e) :
    (submit_pod s id hh c).1 = s := by
  rcases submit_pod_spec s id hh c with ⟨e', he⟩ | ⟨fc, -, -, -, he⟩
  · rw [he]
  · rw [he] at h; simp at h

theorem evaluate_and_settle_error_state (s : Ledger) (id inv now : Nat)
    (e : Error)
    (h : (evaluate_and_settle s id inv now).2 = Except.error e) :
    (evaluate_and_settle s id inv now).1 = s := by
  rcases evaluate_and_settle_spec s id inv now with ⟨e', he⟩ | ⟨fc, -, -, -, he⟩
  · rw [he]
  · rw [he] at h; simp at h

/-- C4: whenever an operation returns an error, the stored state — counter,
every record, and the event stream — is exactly what it was before the
call: no field is mutated and no event is emitted. -/
theorem c4_error_rollback (s : Ledger) (op : Op) (e : Error)
    (h : (applyOp s op).2 = OpResult.err e) : (applyOp s op).1 = s := by
  cases op with
  | create sh ca o d t p dl hh now =>
    simp [applyOp, create_contract_spec, OpResult.ofId] at h
  | accept id ca =>
    simp only [applyOp] at h ⊢
    rcases h2 : (accept s id ca).2 with e' | u
    · exact accept_error_state s id ca e' h2
    · rw [h2] at h; simp [OpResult.ofUnit] at h
  | markFunded id sh =>
    simp only [applyOp] at h ⊢
    rcases h2 : (mark_funded s id sh).2 with e' | u
    · exact mark_funded_error_state s id sh e' h2
    · rw [h2] at h; simp [OpResult.ofUnit] at h
  | startTrip id c =>
    simp only [applyOp] at h ⊢
    rcases h2 : (start_trip s id c).2 with e' | u
    · exact start_trip_error_state s id c e' h2
    · rw [h2] at h; simp [OpResult.ofUnit] at h
  | logTelemetry id a k c o =>
    simp only [applyOp] at h ⊢
    rcases h2 : (log_telemetry s id a k c o).2 with e' | u
    · exact log_telemetry_error_state s id a k c o e' h2
    · rw [h2] at h; simp [OpResult.ofUnit] at h
  | submitPod id hh c =>
    simp only [applyOp] at h ⊢
    rcases h2 : (submit_pod s id hh c).2 with e' | u
    · exact submit_pod_error_state s id hh c e' h2
    · rw [h2] at h; simp [OpResult.ofUnit] at h
  | settle id inv now =>
    simp only [applyOp] at h ⊢
    rcases h2 : (evaluate_and_settle s id inv now).2 with e' | p
    · exact evaluate_and_settle_error_state s id inv now e' h2
    · rw [h2] at h; simp [OpResult.ofPay] at h
  | getContract id => rfl

/-- Witness for C4: `accept` on the empty ledger fails with `NotFound` and
leaves the ledger exactly as it was. -/
theorem c4_error_rollback_witness :
    (applyOp initLedger (Op.accept 1 5)).2 = OpResult.err Error.NotFound ∧
    (applyOp initLedger (Op.accept 1 5)).1 = initLedger :=
  ⟨rfl, c4_error_rollback initLedger (Op.accept 1 5) Error.NotFound rfl⟩

/-- C10: `create_contract` has no error path: for every input — including a
negative or zero price, a deadline already in the past, shipper equal to
carrier, and empty location strings — it returns `Ok` with the freshly
allocated id and persists a `Draft` record holding exactly the given
fields; no field is validated. -/
theorem c10_create_no_validation (s : Ledger) (sh ca : Nat) (o d : String)
    (t : Nat) (p : Int) (dl hh now : Nat) :
    (create_contract s sh ca o d t p dl hh now).2 =
      Except.ok (s.next_id_val + 1) ∧
    (create_contract s sh ca o d t p dl hh now).1.contracts
        (s.next_id_val + 1) =
      some { id := s.next_id_val + 1, shipper := sh, carrier := ca,
             origin := o, destination := d, token := t, price := p,
             deadline_unix := dl, doc_hash := hh, status := Status.Draft,
             created_at := now, escrow_funded := false, total_secs := 0,
             total_km := 0, computed_cost := 0, last_paid := 0 } := by
  refine ⟨rfl, ?_⟩
  rw [create_contract_spec]
  simp [publish, storeContract]

/-- C9: `log_telemetry` enforces no role restriction on the oracle: its
outcome and post-state do not depend on the oracle argument at all, and it
can never return `Unauthorized` — in particular not on an `InTransit`
record, whether the oracle is the shipper, the carrier, or anyone else. -/
theorem c9_no_oracle_gate (s : Ledger) (id a k : Nat) (c : Int)
    (o o' : Nat) :
    log_telemetry s id a k c o = log_telemetry s id a k c o' ∧
    (log_telemetry s id a k c o).2 ≠ Except.error Error.Unauthorized := by
  refine ⟨rfl, ?_⟩
  unfold log_telemetry
  split
  · simp
  · split
    · simp
    · simp

/-- Witness for C9 on the scenario's `InTransit` ledger: oracles `77` and
`88` produce identical outcomes and no `Unauthorized`. -/
theorem c9_no_oracle_gate_witness :
    log_telemetry demoInTransit 1 3600 500 200 77 =
      log_telemetry demoInTransit 1 3600 500 200 88 ∧
    (log_telemetry demoInTransit 1 3600 500 200 77).2 ≠
      Except.error Error.Unauthorized :=
  c9_no_oracle_gate demoInTransit 1 3600 500 200 77 88

/-- Truncation toward zero: `i128` division by two keeps the sign and
halves the magnitude rounding down, never away from zero. -/
theorem tdiv_two_sign_natAbs (p : Int) :
    Int.tdiv p 2 = p.sign * ((p.natAbs / 2 : Nat) : Int) := by
  rcases p with m | m
  · cases m with
    | zero => decide
    | succ n =>
      have h1 : Int.tdiv (Int.ofNat (n + 1)) 2 = Int.ofNat ((n + 1) / 2) := rfl
      have h2 : (Int.ofNat (n + 1)).sign = 1 := rfl
      have h3 : (Int.ofNat (n + 1)).natAbs = n + 1 := rfl
      rw [h1, h2, h3, one_mul]
      rfl
  · have h1 : Int.tdiv (Int.negSucc m) 2 = -Int.ofNat ((m + 1) / 2) := rfl
    have h2 : (Int.negSucc m).sign = -1 := rfl
    have h3 : (Int.negSucc m).natAbs = m + 1 := rfl
    rw [h1, h2, h3, neg_one_mul]
    rfl

/-- C2: on a `Delivered`, escrow-funded record, settlement at ledger time
`now` returns the full `price` when `now ≤ deadline_unix` and the
truncated-toward-zero half `Int.tdiv price 2` when `now > deadline_unix`;
the returned amount is exactly what is stored in `last_paid`, and the
stored status becomes `Settled`.  The last conjunct makes the truncation
explicit: the magnitude is halved rounding down (never up). -/
theorem c2_settlement (s : Ledger) (id inv now : Nat) (fc : FreightContract)
    (h1 : s.contracts id = some fc) (h2 : fc.status = Status.Delivered)
    (h3 : fc.escrow_funded = true) :
    (evaluate_and_settle s id inv now).2 =
      Except.ok (if now ≤ fc.deadline_unix then fc.price
                 else Int.tdiv fc.price 2) ∧
    (evaluate_and_settle s id inv now).1.contracts id =
      some { fc with status := Status.Settled,
                     last_paid := if now ≤ fc.deadline_unix then fc.price
                                  else Int.tdiv fc.price 2 } ∧
    Int.tdiv fc.price 2 =
      fc.price.sign * ((fc.price.natAbs / 2 : Nat) : Int) := by
  refine ⟨?_, ?_, tdiv_two_sign_natAbs fc.price⟩
  all_goals
    simp only [evaluate_and_settle, h1, h2, h3]
    simp [publish, storeContract]

set_option maxRecDepth 4000 in
/-- Computation of the record the scenario leaves under id 1 after
delivery. -/
theorem demoDelivered_contracts :
    demoDelivered.contracts 1 = some demoDeliveredFc := rfl

/-- Witness for C2 on the scenario's `Delivered` ledger: settling at time
`90 ≤ 100` pays the full `1000`, stored in `last_paid`, with status
`Settled`; settling at `101 > 100` pays the truncated half `500`. -/
theorem c2_settlement_witness :
    ((evaluate_and_settle demoDelivered 1 5 90).2 = Except.ok 1000 ∧
     ((evaluate_and_settle demoDelivered 1 5 90).1.contracts 1).map
         (fun fc => (fc.last_paid, fc.status)) =
       some (1000, Status.Settled)) ∧
    (evaluate_and_settle demoDelivered 1 5 101).2 = Except.ok 500 := by
  have h90 := c2_settlement demoDelivered 1 5 90 demoDeliveredFc
    demoDelivered_contracts rfl rfl
  have h101 := c2_settlement demoDelivered 1 5 101 demoDeliveredFc
    demoDelivered_contracts rfl rfl
  obtain ⟨ha, hb, -⟩ := h90
  obtain ⟨hc, -, -⟩ := h101
  have hdiv : Int.tdiv 1000 2 = 500 := by decide
  refine ⟨⟨?_, ?_⟩, ?_⟩
  · rw [ha]; simp [demoDeliveredFc]
  · rw [hb]; simp [demoDeliveredFc]
  · rw [hc]; simp [demoDeliveredFc, hdiv]


set_option maxRecDepth 4000 in
/-- Computation of the record the scenario leaves under id 1 at creation. -/
theorem demoDraft_contracts :
    demoDraft.contracts 1 = some demoDraftFc := rfl

set_option maxRecDepth 4000 in
/-- Computation of the record the scenario leaves under id 1 after
acceptance. -/
theorem demoActive_contracts :
    demoActive.contracts 1 = some demoActiveFc := rfl

set_option maxRecDepth 4000 in
/-- Computation of the record the scenario leaves under id 1 once the trip
has started. -/
theorem demoInTransit_contracts :
    demoInTransit.contracts 1 = some demoInTransitFc := rfl

set_option maxRecDepth 4000 in
/-- Computation of the record the scenario leaves under id 1 after one
telemetry call. -/
theorem demoTele_contracts :
    demoTele.contracts 1 = some demoTeleFc := rfl

/-- C6: on an `Active`, unfunded record, `start_trip` by the shipper or the
carrier fails with `EscrowNotFunded` and mutates nothing; after the
shipper's `mark_funded` succeeds on that record, the same `start_trip`
call succeeds and the stored status becomes `InTransit`. -/
theorem c6_funding_gate (s : Ledger) (id caller : Nat)
    (fc : FreightContract) (h1 : s.contracts id = some fc)
    (h2 : fc.status = Status.Active) (h3 : fc.escrow_funded = false)
    (h4 : caller = fc.shipper ∨ caller = fc.carrier) :
    start_trip s id caller = (s, Except.error Error.EscrowNotFunded) ∧
    (mark_funded s id fc.shipper).2 = Except.ok () ∧
    (start_trip (mark_funded s id fc.shipper).1 id caller).2 =
      Except.ok () ∧
    ∃ fc', (start_trip (mark_funded s id fc.shipper).1 id
        caller).1.contracts id = some fc' ∧
      fc'.status = Status.InTransit := by
  rcases h4 with h4 | h4 <;>
    simp [start_trip, mark_funded, h1, h2, h3, h4, publish, storeContract]

/-- Witness for C6 on the scenario's `Active`, unfunded ledger, with the
carrier starting the trip. -/
theorem c6_funding_gate_witness :
    start_trip demoActive 1 20 =
      (demoActive, Except.error Error.EscrowNotFunded) ∧
    (mark_funded demoActive 1 10).2 = Except.ok () ∧
    (start_trip (mark_funded demoActive 1 10).1 1 20).2 = Except.ok () ∧
    ∃ fc', (start_trip (mark_funded demoActive 1 10).1 1 20).1.contracts 1 =
        some fc' ∧ fc'.status = Status.InTransit :=
  c6_funding_gate demoActive 1 20 demoActiveFc demoActive_contracts
    rfl rfl (Or.inr rfl)

/-- C7: on an existing record, `accept` with a caller other than the
record's carrier, `mark_funded` with a caller other than the record's
shipper, and `start_trip` / `submit_pod` with a caller that is neither
party, all fail with `Unauthorized` and leave the ledger untouched. -/
theorem c7_unauthorized (s : Ledger) (id : Nat) (fc : FreightContract)
    (a : Nat) (h : s.contracts id = some fc) :
    (a ≠ fc.carrier →
      accept s id a = (s, Except.error Error.Unauthorized)) ∧
    (a ≠ fc.shipper →
      mark_funded s id a = (s, Except.error Error.Unauthorized)) ∧
    (a ≠ fc.shipper → a ≠ fc.carrier →
      start_trip s id a = (s, Except.error Error.Unauthorized)) ∧
    (∀ hh, a ≠ fc.shipper → a ≠ fc.carrier →
      submit_pod s id hh a = (s, Except.error Error.Unauthorized)) := by
  refine ⟨?_, ?_, ?_, ?_⟩
  · intro ha; simp [accept, h, Ne.symm ha]
  · intro ha; simp [mark_funded, h, Ne.symm ha]
  · intro ha hb; simp [start_trip, h, ha, hb]
  · intro hh ha hb; simp [submit_pod, h, ha, hb]

/-- Witness for C7 on the scenario's freshly created record, with the
unrelated caller `21`. -/
theorem c7_unauthorized_witness :
    accept demoDraft 1 21 = (demoDraft, Except.error Error.Unauthorized) ∧
    mark_funded demoDraft 1 21 =
      (demoDraft, Except.error Error.Unauthorized) ∧
    start_trip demoDraft 1 21 =
      (demoDraft, Except.error Error.Unauthorized) ∧
    submit_pod demoDraft 1 55 21 =
      (demoDraft, Except.error Error.Unauthorized) := by
  obtain ⟨h1, h2, h3, h4⟩ :=
    c7_unauthorized demoDraft 1 demoDraftFc 21 demoDraft_contracts
  exact ⟨h1 (by decide), h2 (by decide), h3 (by decide) (by decide),
    h4 55 (by decide) (by decide)⟩

/-! ## No operation can produce `AlreadySettled` -/

theorem OpResult.ofUnit_err (x : Except Error Unit) (e : Error) :
    OpResult.ofUnit x = OpResult.err e ↔ x = Except.error e := by
  cases x <;> simp [OpResult.ofUnit]

theorem OpResult.ofPay_err (x : Except Error Int) (e : Error) :
    OpResult.ofPay x = OpResult.err e ↔ x = Except.error e := by
  cases x <;> simp [OpResult.ofPay]

theorem OpResult.ofRecord_err (x : Except Error FreightContract)
    (e : Error) :
    OpResult.ofRecord x = OpResult.err e ↔ x = Except.error e := by
  cases x <;> simp [OpResult.ofRecord]

theorem accept_no_already (s : Ledger) (id ca : Nat) :
    (accept s id ca).2 ≠ Except.error Error.AlreadySettled := by
  unfold accept
  split
  · simp
  · split
    · simp
    · split <;> simp

theorem mark_funded_no_already (s : Ledger) (id sh : Nat) :
    (mark_funded s id sh).2 ≠ Except.error Error.AlreadySettled := by
  unfold mark_funded
  split
  · simp
  · split
    · simp
    · split <;> simp

theorem start_trip_no_already (s : Ledger) (id c : Nat) :
    (start_trip s id c).2 ≠ Except.error Error.AlreadySettled := by
  unfold start_trip
  split
  · simp
  · split
    · simp
    · split
      · simp
      · split <;> simp

theorem log_telemetry_no_already (s : Ledger) (id a k : Nat) (c : Int)
    (o : Nat) :
    (log_telemetry s id a k c o).2 ≠ Except.error Error.AlreadySettled := by
  unfold log_telemetry
  split
  · simp
  · split <;> simp

theorem submit_pod_no_already (s : Ledger) (id hh c : Nat) :
    (submit_pod s id hh c).2 ≠ Except.error Error.AlreadySettled := by
  unfold submit_pod
  split
  · simp
  · split
    · simp
    · split <;> simp

theorem evaluate_and_settle_no_already (s : Ledger) (id inv now : Nat) :
    (evaluate_and_settle s id inv now).2 ≠
      Except.error Error.AlreadySettled := by
  unfold evaluate_and_settle
  split
  · simp
  · split
    · simp
    · split <;> simp

theorem evaluate_and_settle_ok_status (s : Ledger) (id inv now : Nat)
    (pay : Int)
    (h : (evaluate_and_settle s id inv now).2 = Except.ok pay) :
    ∃ fc', (evaluate_and_settle s id inv now).1.contracts id = some fc' ∧
      fc'.status = Status.Settled := by
  rcases evaluate_and_settle_spec s id inv now with ⟨e, he⟩ | ⟨fc, -, -, -, he⟩
  · rw [he] at h; simp at h
  · rw [he]
    refine ⟨{ fc with status := Status.Settled,
                      last_paid := if now ≤ fc.deadline_unix then fc.price
                                   else Int.tdiv fc.price 2 }, ?_, rfl⟩
    simp [publish, storeContract]

/-- C8: the `AlreadySettled` error is dead code — no operation from any
state can return it; and a second `evaluate_and_settle` on a record whose
first settlement succeeded fails with `BadState`, because settlement moved
the status from `Delivered` to `Settled`. -/
theorem c8_already_settled_unreachable :
    (∀ (s : Ledger) (op : Op),
      (applyOp s op).2 ≠ OpResult.err Error.AlreadySettled) ∧
    (∀ (s : Ledger) (id inv now : Nat) (pay : Int),
      (evaluate_and_settle s id inv now).2 = Except.ok pay →
      ∀ inv' now',
        (evaluate_and_settle (evaluate_and_settle s id inv now).1 id inv'
            now').2 = Except.error Error.BadState) := by
  constructor
  · intro s op
    cases op with
    | create sh ca o d t p dl hh now =>
      simp [applyOp, create_contract_spec, OpResult.ofId]
    | accept id ca =>
      simp only [applyOp, ne_eq, OpResult.ofUnit_err]
      exact accept_no_already s id ca
    | markFunded id sh =>
      simp only [applyOp, ne_eq, OpResult.ofUnit_err]
      exact mark_funded_no_already s id sh
    | startTrip id c =>
      simp only [applyOp, ne_eq, OpResult.ofUnit_err]
      exact start_trip_no_already s id c
    | logTelemetry id a k c o =>
      simp only [applyOp, ne_eq, OpResult.ofUnit_err]
      exact log_telemetry_no_already s id a k c o
    | submitPod id hh c =>
      simp only [applyOp, ne_eq, OpResult.ofUnit_err]
      exact submit_pod_no_already s id hh c
    | settle id inv now =>
      simp only [applyOp, ne_eq, OpResult.ofPay_err]
      exact evaluate_and_settle_no_already s id inv now
    | getContract id =>
      simp only [applyOp, ne_eq, OpResult.ofRecord_err]
      unfold get_contract
      split <;> simp
  · intro s id inv now pay h inv' now'
    obtain ⟨fc', hC, hS⟩ := evaluate_and_settle_ok_status s id inv now pay h
    generalize hG : (evaluate_and_settle s id inv now).1 = t at hC ⊢
    simp [evaluate_and_settle, hC, hS]

set_option maxRecDepth 4000 in
/-- Witness for C8: settling the scenario's delivered contract at time 90
succeeds, and a second settlement call fails with `BadState`. -/
theorem c8_already_settled_unreachable_witness :
    (evaluate_and_settle (evaluate_and_settle demoDelivered 1 5 90).1 1 6
        91).2 = Except.error Error.BadState := by
  have hok : (evaluate_and_settle demoDelivered 1 5 90).2 =
      Except.ok 1000 := by
    simp [evaluate_and_settle, demoDelivered_contracts, demoDeliveredFc]
  exact c8_already_settled_unreachable.2 demoDelivered 1 5 90 1000 hok 6 91


/-! ## C3: telemetry accumulation -/

set_option maxRecDepth 8000 in
/-- Counterexample to C3 as frozen: `add_cost` is a signed `i128`, so a
negative cost delta makes `computed_cost` strictly decrease across a
`log_telemetry` call on an `InTransit` record — here from `200` down to
`195`. -/
theorem c3_counterexample :
    (demoTele.contracts 1).map FreightContract.status =
      some Status.InTransit ∧
    (demoTele.contracts 1).map FreightContract.computed_cost = some 200 ∧
    ((log_telemetry demoTele 1 0 0 (-5) 77).1.contracts 1).map
        FreightContract.computed_cost = some 195 ∧
    (195 : Int) < 200 := by
  refine ⟨?_, ?_, ?_, by norm_num⟩
  · rw [demoTele_contracts]; rfl
  · rw [demoTele_contracts]; rfl
  · simp only [log_telemetry, demoTele_contracts, publish, storeContract]
    norm_num [demoTeleFc, demoInTransitFc, demoDraftFc, satAddNat,
      satAddI128, I128MIN, I128MAX]

/-- C3 (amended): on a record that is not `InTransit`, `log_telemetry`
fails with `BadState` and mutates nothing; on an `InTransit` record
(with fields in their machine-representable ranges) it performs exactly
the three saturating additions: `total_secs` and `total_km` never
decrease and stay clamped at their unsigned maxima, while `computed_cost`
is clamped into the `i128` range and never decreases provided the signed
delta `add_cost` is nonnegative (a negative delta decreases it — see the
counterexample).  The status itself is unchanged. -/
theorem c3_telemetry_monotone (s : Ledger) (id : Nat)
    (add_secs add_km : Nat) (add_cost : Int) (oracle : Nat)
    (fc : FreightContract) (h : s.contracts id = some fc)
    (hsec : fc.total_secs ≤ U64MAX) (hkm : fc.total_km ≤ U32MAX)
    (hcostL : I128MIN ≤ fc.computed_cost)
    (hcostU : fc.computed_cost ≤ I128MAX) :
    (fc.status ≠ Status.InTransit →
      log_telemetry s id add_secs add_km add_cost oracle =
        (s, Except.error Error.BadState)) ∧
    (fc.status = Status.InTransit →
      ∃ fc', (log_telemetry s id add_secs add_km add_cost
          oracle).1.contracts id = some fc' ∧
        (log_telemetry s id add_secs add_km add_cost oracle).2 =
          Except.ok () ∧
        fc'.total_secs = satAddNat fc.total_secs add_secs U64MAX ∧
        fc'.total_km = satAddNat fc.total_km add_km U32MAX ∧
        fc'.computed_cost = satAddI128 fc.computed_cost add_cost ∧
        fc.total_secs ≤ fc'.total_secs ∧ fc'.total_secs ≤ U64MAX ∧
        fc.total_km ≤ fc'.total_km ∧ fc'.total_km ≤ U32MAX ∧
        (0 ≤ add_cost → fc.computed_cost ≤ fc'.computed_cost) ∧
        I128MIN ≤ fc'.computed_cost ∧ fc'.computed_cost ≤ I128MAX ∧
        fc'.status = fc.status) := by
  constructor
  · intro hst
    simp [log_telemetry, h, hst]
  · intro hst
    refine ⟨{ fc with
                total_secs := satAddNat fc.total_secs add_secs U64MAX,
                total_km := satAddNat fc.total_km add_km U32MAX,
                computed_cost := satAddI128 fc.computed_cost add_cost },
            ?_, ?_, rfl, rfl, rfl, ?_, ?_, ?_, ?_, ?_, ?_, ?_, rfl⟩
    · simp [log_telemetry, h, hst, publish, storeContract]
    · simp [log_telemetry, h, hst]
    · exact le_min (Nat.le_add_right _ _) hsec
    · exact min_le_right _ _
    · exact le_min (Nat.le_add_right _ _) hkm
    · exact min_le_right _ _
    · intro hc
      have h1 : fc.computed_cost ≤ min (fc.computed_cost + add_cost)
          I128MAX := le_min (by linarith) hcostU
      exact le_trans h1 (le_max_right _ _)
    · exact le_max_left _ _
    · exact max_le (by norm_num [I128MIN, I128MAX]) (min_le_right _ _)

/-- Witness for the amended C3 on the scenario's `InTransit` ledger, with
deltas `3600` secs, `500` km and nonnegative cost `200`. -/
theorem c3_telemetry_monotone_witness :
    demoInTransitFc.status = Status.InTransit ∧
    (∃ fc', (log_telemetry demoInTransit 1 3600 500 200 77).1.contracts 1 =
        some fc' ∧
      (log_telemetry demoInTransit 1 3600 500 200 77).2 = Except.ok () ∧
      fc'.total_secs = satAddNat demoInTransitFc.total_secs 3600 U64MAX ∧
      fc'.total_km = satAddNat demoInTransitFc.total_km 500 U32MAX ∧
      fc'.computed_cost = satAddI128 demoInTransitFc.computed_cost 200 ∧
      demoInTransitFc.total_secs ≤ fc'.total_secs ∧
      fc'.total_secs ≤ U64MAX ∧
      demoInTransitFc.total_km ≤ fc'.total_km ∧ fc'.total_km ≤ U32MAX ∧
      (0 ≤ (200 : Int) →
        demoInTransitFc.computed_cost ≤ fc'.computed_cost) ∧
      I128MIN ≤ fc'.computed_cost ∧ fc'.computed_cost ≤ I128MAX ∧
      fc'.status = demoInTransitFc.status) :=
  ⟨rfl, (c3_telemetry_monotone demoInTransit 1 3600 500 200 77
      demoInTransitFc demoInTransit_contracts (by decide) (by decide)
      (by norm_num [demoInTransitFc, demoDraftFc, I128MIN])
      (by norm_num [demoInTransitFc, demoDraftFc, I128MAX])).2 rfl⟩

/-! ## C5: monotonic id allocation -/

theorem createdIds_publish_created (s : Ledger) (id : Nat) :
    createdIds (publish s (Event.created id)) = createdIds s ++ [id] := by
  simp [createdIds, publish]

theorem createdIds_publish_other (s : Ledger) (ev : Event)
    (h : ∀ id, ev ≠ Event.created id) :
    createdIds (publish s ev) = createdIds s := by
  cases ev
  case created id => exact absurd rfl (h id)
  all_goals simp [createdIds, publish]

theorem createdIds_storeContract (s : Ledger) (id : Nat)
    (fc : FreightContract) :
    createdIds (storeContract s id fc) = createdIds s := rfl

theorem createdIds_set_counter (s : Ledger) (n : Nat) :
    createdIds { s with next_id_val := n } = createdIds s := rfl

theorem set_counter_next_id (s : Ledger) (n : Nat) :
    ({ s with next_id_val := n } : Ledger).next_id_val = n := rfl

theorem set_counter_contracts (s : Ledger) (n : Nat) :
    ({ s with next_id_val := n } : Ledger).contracts = s.contracts := rfl

theorem createdIds_after_store (s : Ledger) (id : Nat)
    (fc : FreightContract) (ev : Event)
    (hev : ∀ i, ev ≠ Event.created i)
    (h : createdIds s = List.range' 1 s.next_id_val) :
    createdIds (publish (storeContract s id fc) ev) =
      List.range' 1 (publish (storeContract s id fc) ev).next_id_val := by
  rw [createdIds_publish_other _ _ hev, createdIds_storeContract,
    publish_next_id, storeContract_next_id, h]

theorem applyOp_createdIds (s : Ledger) (op : Op)
    (h : createdIds s = List.range' 1 s.next_id_val) :
    createdIds (applyOp s op).1 =
      List.range' 1 (applyOp s op).1.next_id_val := by
  cases op with
  | create sh ca o d t p dl hh now =>
    simp only [applyOp, create_contract_spec]
    rw [createdIds_publish_created, createdIds_storeContract,
      createdIds_set_counter, h, publish_next_id, storeContract_next_id,
      set_counter_next_id]
    rw [List.range'_1_concat]
    simp [Nat.add_comm]
  | accept id ca =>
    simp only [applyOp]
    rcases accept_spec s id ca with ⟨e, he⟩ | ⟨fc, -, -, -, he⟩
    · rw [he]; exact h
    · rw [he]
      exact createdIds_after_store s id _ _ (by intro i; simp) h
  | markFunded id sh =>
    simp only [applyOp]
    rcases mark_funded_spec s id sh with ⟨e, he⟩ | ⟨fc, -, -, -, he⟩
    · rw [he]; exact h
    · rw [he]
      exact createdIds_after_store s id _ _ (by intro i; simp) h
  | startTrip id c =>
    simp only [applyOp]
    rcases start_trip_spec s id c with ⟨e, he⟩ | ⟨fc, -, -, -, -, he⟩
    · rw [he]; exact h
    · rw [he]
      exact createdIds_after_store s id _ _ (by intro i; simp) h
  | logTelemetry id a k c o =>
    simp only [applyOp]
    rcases log_telemetry_spec s id a k c o with ⟨e, he⟩ | ⟨fc, -, -, he⟩
    · rw [he]; exact h
    · rw [he]
      exact createdIds_after_store s id _ _ (by intro i; simp) h
  | submitPod id hh c =>
    simp only [applyOp]
    rcases submit_pod_spec s id hh c with ⟨e, he⟩ | ⟨fc, -, -, -, he⟩
    · rw [he]; exact h
    · rw [he]
      exact createdIds_after_store s id _ _ (by intro i; simp) h
  | settle id inv now =>
    simp only [applyOp]
    rcases evaluate_and_settle_spec s id inv now with
      ⟨e, he⟩ | ⟨fc, -, -, -, he⟩
    · rw [he]; exact h
    · rw [he]
      exact createdIds_after_store s id _ _ (by intro i; simp) h
  | getContract id => exact h

theorem runOps_createdIds : ∀ (ops : List Op) (s : Ledger),
    createdIds s = List.range' 1 s.next_id_val →
    createdIds (runOps s ops) = List.range' 1 (runOps s ops).next_id_val
  | [], _, h => h
  | op :: ops, s, h => runOps_createdIds ops _ (applyOp_createdIds s op h)

/-- C5: along any operation sequence from the initial ledger (failures and
other calls interleaved), the ids carried by the `CREATED` events — the
ids `create_contract` returned — are exactly `[1, 2, …, k]` where `k` is
the final counter value: strictly increasing, no repeats, and the `n`-th
successful creation (0-indexed) returns id `n + 1`. -/
theorem c5_monotonic_ids (ops : List Op) :
    createdIds (runOps initLedger ops) =
      List.range' 1 (runOps initLedger ops).next_id_val ∧
    List.Pairwise (· < ·) (createdIds (runOps initLedger ops)) ∧
    (∀ n, n < (runOps initLedger ops).next_id_val →
      (createdIds (runOps initLedger ops))[n]? = some (n + 1)) := by
  have h := runOps_createdIds ops initLedger rfl
  refine ⟨h, ?_, ?_⟩
  · rw [h]; exact List.pairwise_lt_range' 1 _
  · intro n hn
    rw [h, List.getElem?_range' 1 1 hn]
    simp only [Option.some.injEq]
    omega

set_option maxRecDepth 8000 in
/-- Witness for C5 on the sample sequence `demoOps` (two creations, a
failing `accept` in between): the second creation got id `2`, and the
created ids are pairwise increasing. -/
theorem c5_monotonic_ids_witness :
    (createdIds (runOps initLedger demoOps))[1]? = some 2 ∧
    List.Pairwise (· < ·) (createdIds (runOps initLedger demoOps)) :=
  ⟨(c5_monotonic_ids demoOps).2.2 1 (by decide),
   (c5_monotonic_ids demoOps).2.1⟩

/-! ## C1: forward-only status transitions -/

theorem ids_bounded_store (s : Ledger) (id : Nat)
    (fc0 fc1 : FreightContract) (ev : Event)
    (h1 : s.contracts id = some fc0) (ih : IdsBounded s) :
    IdsBounded (publish (storeContract s id fc1) ev) := by
  intro i fc hc
  simp only [publish_contracts, storeContract_at, publish_next_id,
    storeContract_next_id] at hc ⊢
  by_cases hi : i = id
  · subst hi; exact ih i fc0 h1
  · rw [if_neg hi] at hc; exact ih i fc hc

theorem initLedger_ids_bounded : IdsBounded initLedger := by
  intro i fc hc
  simp [initLedger] at hc

theorem applyOp_ids_bounded (s : Ledger) (op : Op) (ih : IdsBounded s) :
    IdsBounded (applyOp s op).1 := by
  cases op with
  | create sh ca o d t p dl hh now =>
    intro i fc hc
    simp only [applyOp, create_contract_spec, publish_contracts,
      storeContract_at, publish_next_id, storeContract_next_id,
      set_counter_next_id, set_counter_contracts] at hc ⊢
    by_cases hi : i = s.next_id_val + 1
    · omega
    · rw [if_neg hi] at hc
      have := ih i fc hc
      omega
  | accept id ca =>
    rcases accept_spec s id ca with ⟨e, he⟩ | ⟨fc0, h1, -, -, he⟩
    · simp only [applyOp, he]; exact ih
    · simp only [applyOp, he]
      exact ids_bounded_store s id fc0 _ _ h1 ih
  | markFunded id sh =>
    rcases mark_funded_spec s id sh with ⟨e, he⟩ | ⟨fc0, h1, -, -, he⟩
    · simp only [applyOp, he]; exact ih
    · simp only [applyOp, he]
      exact ids_bounded_store s id fc0 _ _ h1 ih
  | startTrip id c =>
    rcases start_trip_spec s id c with ⟨e, he⟩ | ⟨fc0, h1, -, -, -, he⟩
    · simp only [applyOp, he]; exact ih
    · simp only [applyOp, he]
      exact ids_bounded_store s id fc0 _ _ h1 ih
  | logTelemetry id a k c o =>
    rcases log_telemetry_spec s id a k c o with ⟨e, he⟩ | ⟨fc0, h1, -, he⟩
    · simp only [applyOp, he]; exact ih
    · simp only [applyOp, he]
      exact ids_bounded_store s id fc0 _ _ h1 ih
  | submitPod id hh c =>
    rcases submit_pod_spec s id hh c with ⟨e, he⟩ | ⟨fc0, h1, -, -, he⟩
    · simp only [applyOp, he]; exact ih
    · simp only [applyOp, he]
      exact ids_bounded_store s id fc0 _ _ h1 ih
  | settle id inv now =>
    rcases evaluate_and_settle_spec s id inv now with
      ⟨e, he⟩ | ⟨fc0, h1, -, -, he⟩
    · simp only [applyOp, he]; exact ih
    · simp only [applyOp, he]
      exact ids_bounded_store s id fc0 _ _ h1 ih
  | getContract id => exact ih

theorem reachable_ids_bounded (s : Ledger) (h : Reachable s) :
    IdsBounded s := by
  induction h with
  | init => exact initLedger_ids_bounded
  | step op hr ih => exact applyOp_ids_bounded _ op ih

theorem forward_store (s : Ledger) (id : Nat) (fc0 fc1 : FreightContract)
    (ev : Event) (hc0 : s.contracts id = some fc0) (i : Nat)
    (fc fc' : FreightContract) (h1 : s.contracts i = some fc)
    (h2 : (publish (storeContract s id fc1) ev).contracts i = some fc') :
    fc' = fc ∨ (i = id ∧ fc = fc0 ∧ fc' = fc1) := by
  simp only [publish_contracts, storeContract_at] at h2
  by_cases hi : i = id
  · subst hi
    rw [if_pos rfl] at h2
    rw [h1] at hc0
    exact Or.inr ⟨rfl, Option.some.inj hc0, (Option.some.inj h2).symm⟩
  · rw [if_neg hi] at h2
    rw [h1] at h2
    exact Or.inl (Option.some.inj h2).symm

/-- C1: from any reachable ledger, every operation leaves every stored
record's status unchanged or advances it to its immediate successor in
`Draft, Active, InTransit, Delivered, Settled`; no backward or skipping
transition is possible. -/
theorem c1_forward_only (s : Ledger) (hs : Reachable s) (op : Op)
    (i : Nat) (fc fc' : FreightContract) (h1 : s.contracts i = some fc)
    (h2 : (applyOp s op).1.contracts i = some fc') :
    fc'.status = fc.status ∨ fc.status.succ = some fc'.status := by
  have hb := reachable_ids_bounded s hs
  cases op with
  | create sh ca o d t p dl hh now =>
    have hle : i ≤ s.next_id_val := hb i fc h1
    simp only [applyOp, create_contract_spec, publish_contracts,
      storeContract_at, set_counter_contracts] at h2
    rw [if_neg (by omega)] at h2
    rw [h1] at h2
    exact Or.inl (by rw [(Option.some.inj h2).symm])
  | accept id ca =>
    rcases accept_spec s id ca with ⟨e, he⟩ | ⟨fc0, hc0, -, hst, he⟩
    · simp only [applyOp, he] at h2
      rw [h1] at h2
      exact Or.inl (by rw [(Option.some.inj h2).symm])
    · simp only [applyOp, he] at h2
      rcases forward_store s id fc0 _ _ hc0 i fc fc' h1 h2 with
        hEq | ⟨hi, hfc, hfc'⟩
      · exact Or.inl (by rw [hEq])
      · right
        rw [hfc, hst, hfc']
        rfl
  | markFunded id sh =>
    rcases mark_funded_spec s id sh with ⟨e, he⟩ | ⟨fc0, hc0, -, hst, he⟩
    · simp only [applyOp, he] at h2
      rw [h1] at h2
      exact Or.inl (by rw [(Option.some.inj h2).symm])
    · simp only [applyOp, he] at h2
      rcases forward_store s id fc0 _ _ hc0 i fc fc' h1 h2 with
        hEq | ⟨hi, hfc, hfc'⟩
      · exact Or.inl (by rw [hEq])
      · exact Or.inl (by rw [hfc, hfc'])
  | startTrip id c =>
    rcases start_trip_spec s id c with ⟨e, he⟩ | ⟨fc0, hc0, -, hst, -, he⟩
    · simp only [applyOp, he] at h2
      rw [h1] at h2
      exact Or.inl (by rw [(Option.some.inj h2).symm])
    · simp only [applyOp, he] at h2
      rcases forward_store s id fc0 _ _ hc0 i fc fc' h1 h2 with
        hEq | ⟨hi, hfc, hfc'⟩
      · exact Or.inl (by rw [hEq])
      · right
        rw [hfc, hst, hfc']
        rfl
  | logTelemetry id a k c o =>
    rcases log_telemetry_spec s id a k c o with ⟨e, he⟩ | ⟨fc0, hc0, -, he⟩
    · simp only [applyOp, he] at h2
      rw [h1] at h2
      exact Or.inl (by rw [(Option.some.inj h2).symm])
    · simp only [applyOp, he] at h2
      rcases forward_store s id fc0 _ _ hc0 i fc fc' h1 h2 with
        hEq | ⟨hi, hfc, hfc'⟩
      · exact Or.inl (by rw [hEq])
      · exact Or.inl (by rw [hfc, hfc'])
  | submitPod id hh c =>
    rcases submit_pod_spec s id hh c with ⟨e, he⟩ | ⟨fc0, hc0, -, hst, he⟩
    · simp only [applyOp, he] at h2
      rw [h1] at h2
      exact Or.inl (by rw [(Option.some.inj h2).symm])
    · simp only [applyOp, he] at h2
      rcases forward_store s id fc0 _ _ hc0 i fc fc' h1 h2 with
        hEq | ⟨hi, hfc, hfc'⟩
      · exact Or.inl (by rw [hEq])
      · right
        rw [hfc, hst, hfc']
        rfl
  | settle id inv now =>
    rcases evaluate_and_settle_spec s id inv now with
      ⟨e, he⟩ | ⟨fc0, hc0, hst, -, he⟩
    · simp only [applyOp, he] at h2
      rw [h1] at h2
      exact Or.inl (by rw [(Option.some.inj h2).symm])
    · simp only [applyOp, he] at h2
      rcases forward_store s id fc0 _ _ hc0 i fc fc' h1 h2 with
        hEq | ⟨hi, hfc, hfc'⟩
      · exact Or.inl (by rw [hEq])
      · right
        rw [hfc, hst, hfc']
        rfl
  | getContract id =>
    simp only [applyOp] at h2
    rw [h1] at h2
    exact Or.inl (by rw [(Option.some.inj h2).symm])

/-- Witness for C1 on the scenario's first transition: accepting the
freshly created contract advances its status from `Draft` to its
immediate successor `Active`. -/
theorem c1_forward_only_witness :
    demoActiveFc.status = demoDraftFc.status ∨
      demoDraftFc.status.succ = some demoActiveFc.status :=
  c1_forward_only demoDraft
    (Reachable.step (Op.create 10 20 "A" "B" 99 1000 100 7 5)
      Reachable.init)
    (Op.accept 1 20) 1 demoDraftFc demoActiveFc demoDraft_contracts
    demoActive_contracts

end RoadFreight
